import Mathlib

/-!
Verification of the three-stage travel-assistant pipeline (`src/main.py`).

Shallow embedding:

* `Message` mirrors the LangChain message objects used by the script
  (`HumanMessage`, `AIMessage`, `SystemMessage`): a role tag plus a text
  content.  `isinstance(m, HumanMessage)` checks become matches on the
  constructor.
* `State` mirrors the `State` TypedDict: a message list and the
  `valid_input` routing flag.  The `add_messages` reducer behaves as plain
  append for the lists the nodes return (old messages keep their ids, the
  single fresh message is appended), so node results are modelled as the
  full updated state.
* The two external collaborators are parameters: `llm : List Message →
  String` stands for `llm.invoke` (which returns an `AIMessage`, modelled
  by wrapping the returned text in `Message.ai`), and `search : String →
  String` stands for `tool_search.run`.
* Python expressions that can raise (`messages[-1]` on an empty list) are
  modelled with `Option`: `none` is an uncaught exception.
  `processing_node` guards the empty list explicitly and is total;
  `process_search` and `format_output` index `messages[-1]` before any
  check and therefore return `Option State`.
* `str.strip()` is modelled by `pyStrip`, which drops whitespace
  characters from both ends of the string (Python's notion of whitespace
  is slightly larger than `Char.isWhitespace`, which no claim here
  depends on).
-/

/-- Python `str.strip()`: the string with whitespace removed from both
ends. -/
def pyStrip (s : String) : String :=
  String.mk (((s.toList.dropWhile Char.isWhitespace).reverse.dropWhile Char.isWhitespace).reverse)

/-- A chat message, tagged with its author role as in the LangChain
message classes used by the script. -/
inductive Message where
  | human (content : String)
  | ai (content : String)
  | system (content : String)
deriving DecidableEq, Repr

/-- `m.content`, the text of a message. -/
def Message.content : Message → String
  | Message.human c => c
  | Message.ai c => c
  | Message.system c => c

/-- `isinstance(m, HumanMessage)`. -/
def Message.isHuman : Message → Bool
  | Message.human _ => true
  | _ => false

/-- `isinstance(m, AIMessage)`. -/
def Message.isAI : Message → Bool
  | Message.ai _ => true
  | _ => false

/-- The shared graph state: chat history plus the routing flag
(`class State(TypedDict)`, src/main.py lines 23-25). -/
structure State where
  messages : List Message
  valid_input : Bool
deriving DecidableEq, Repr

/-- The fixed system instruction of the query-rewriter stage
(src/main.py lines 51-56; the adjacent string literals concatenate). -/
def rewrite_instruction : String :=
  "You are a helpful assistant that is great at processing user queries and turning them into a singular search query." ++
  "You will be given a user query and your job is the turn the users request into a new query that will be passed onto the next node." ++
  "This new query will be used to search the internet for information relevant to the users original query." ++
  "Do not bloat the query with unnecessary information, but ensure the context of the original query is preserved."

/-- The fixed system instruction of the result-formatter stage
(src/main.py lines 107-121; the adjacent string literals concatenate). -/
def format_instruction : String :=
  "You are a helpful assistant that is great at formatting search results into a human readable format." ++
  "You should receive the results of a search query that was processed in the previous few nodes." ++
  "The results should contain contents reguarding travel information, such as destinations, cities, countries, etc." ++
  "Your job is to format the results into the following format:" ++
  "Topic Sentence (Can be something similar like \x27Here are some interesting facts about x\x27 or whatever you feel best fits as an intro sentence.)" ++
  "3-5 bullet points describing the travel location as a whole" ++
  "3-5 bullet points naming destinations the user should visit in the travel location" ++
  "3-5 bullet points naming top things the user should do in the travel location" ++
  "1-3 bullet points naming any other interesting facts about the travel location the user should know (can put N/A if not applicable)" ++
  "A List of sources that were used" ++
  "Stick to this format, and do not bloat the output with unnecessary information." ++
  "Do not explicitly type metadata such as \x27title\x27 or \x27source\x27 in the output, just list the contents of the metadata." ++
  ""

/-- `processing_node` (src/main.py lines 28-64): validates the latest user
message and asks the language model to rewrite it into a search query.
If the message list is empty or its last element is not a `HumanMessage`,
or if the content is empty after stripping, it appends the fixed
diagnostic and sets `valid_input` to false; otherwise it appends the
model response (an `AIMessage`) and sets `valid_input` to true.  The
function raises no exception, hence it is total. -/
def processing_node (llm : List Message → String) (state : State) : State :=
  let messages := state.messages
  match messages.getLast? with
  | some (Message.human c) =>
    if pyStrip c = "" then
      { messages := messages ++ [Message.ai "No user input received."], valid_input := false }
    else
      { messages := messages ++
          [Message.ai (llm [Message.system rewrite_instruction, Message.human c])],
        valid_input := true }
  | _ =>
    { messages := messages ++ [Message.ai "No user input received."], valid_input := false }

/-- `process_search` (src/main.py lines 67-88): reads `messages[-1]`
unconditionally — on an empty list this raises `IndexError`, modelled as
`none`.  If the last message is not an `AIMessage` it appends the fixed
diagnostic with `valid_input` false; otherwise it appends
`"Search results: " ++` the search tool output with `valid_input` true. -/
def process_search (search : String → String) (state : State) : Option State :=
  let messages := state.messages
  match messages.getLast? with
  | none => none
  | some search_query =>
    match search_query with
    | Message.ai c =>
      some { messages := messages ++ [Message.ai ("Search results: " ++ search c)],
             valid_input := true }
    | _ =>
      some { messages := messages ++ [Message.ai "No search query received."],
             valid_input := false }

/-- `format_output` (src/main.py lines 91-129): reads `messages[-1]`
unconditionally — on an empty list this raises `IndexError`, modelled as
`none`.  If the last message is not an `AIMessage` it appends the fixed
diagnostic with `valid_input` false; otherwise it appends the formatted
model response with `valid_input` true. -/
def format_output (llm : List Message → String) (state : State) : Option State :=
  let messages := state.messages
  match messages.getLast? with
  | none => none
  | some search_results =>
    match search_results with
    | Message.ai c =>
      some { messages := messages ++
               [Message.ai (llm [Message.system format_instruction, Message.human c])],
             valid_input := true }
    | _ =>
      some { messages := messages ++ [Message.ai "No search results received."],
             valid_input := false }

/-- The graph nodes registered by `graph_builder` (src/main.py lines
132-160), plus the implicit terminal node `END`. -/
inductive GNode where
  | process_input
  | process_search
  | format_output
  | END
deriving DecidableEq, Repr

/-- The conditional edge out of `process_input` (src/main.py lines
141-148): the lambda reads `valid_input` and the mapping sends `True` to
`process_search` and `False` to `END`. -/
def route_after_input (state : State) : GNode :=
  if state.valid_input then GNode.process_search else GNode.END

/-- The conditional edge out of `process_search` (src/main.py lines
149-156): `True` goes to `format_output`, `False` to `END`. -/
def route_after_search (state : State) : GNode :=
  if state.valid_input then GNode.format_output else GNode.END

/-- The compiled graph's execution semantics, generic in the three node
functions so the routing itself can be stated independently of the node
bodies.  Runs `process_input`, follows the conditional edge, runs
`process_search`, follows its conditional edge, runs `format_output`,
then takes the unconditional edge to `END`.  Returns the final state
together with the list of nodes that were invoked; `none` is an uncaught
exception inside a node. -/
def graphRun (n1 : State → State) (n2 n3 : State → Option State) (s : State) :
    Option (State × List GNode) :=
  let s1 := n1 s
  if route_after_input s1 = GNode.process_search then
    match n2 s1 with
    | none => none
    | some s2 =>
      if route_after_search s2 = GNode.format_output then
        match n3 s2 with
        | none => none
        | some s3 => some (s3, [GNode.process_input, GNode.process_search, GNode.format_output])
      else
        some (s2, [GNode.process_input, GNode.process_search])
  else
    some (s1, [GNode.process_input])

/-- `graph.invoke` (src/main.py line 160): the compiled graph with the
three concrete nodes wired in. -/
def graphInvoke (llm : List Message → String) (search : String → String) (s : State) :
    Option (State × List GNode) :=
  graphRun (processing_node llm) (process_search search) (format_output llm) s

/-- Result of one iteration of the `chatbot` read loop: the user quit,
one pipeline turn ran producing a new state and a printed line, or an
exception escaped. -/
inductive StepResult where
  | quit
  | turn (s : State) (output : String)
  | err
deriving DecidableEq, Repr

/-- One iteration of the `chatbot` loop body (src/main.py lines 171-185):
on exact input "q" the loop stops; otherwise the user message is appended
to the state, the graph is invoked, and `state["messages"][-1]` is
printed when it is an `AIMessage`, else the line
"Invalid response received." is printed. -/
def chatbotStep (llm : List Message → String) (search : String → String)
    (s : State) (user_input : String) : StepResult :=
  if user_input = "q" then StepResult.quit
  else
    let s0 : State := { messages := s.messages ++ [Message.human user_input],
                        valid_input := s.valid_input }
    match graphInvoke llm search s0 with
    | none => StepResult.err
    | some (s1, _) =>
      match s1.messages.getLast? with
      | none => StepResult.err
      | some response =>
        match response with
        | Message.ai c => StepResult.turn s1 c
        | _ => StepResult.turn s1 "Invalid response received."

/-- The initial state built by `chatbot` (src/main.py lines 165-168). -/
def initial_state : State := { messages := [], valid_input := false }

/-- The `chatbot` while loop (src/main.py lines 163-189), driven by the
list of lines the user will type.  Stops at the first "q" returning the
current state and the lines printed so far; `none` is an uncaught
exception (including input exhausted without a "q"). -/
def chatbotRun (llm : List Message → String) (search : String → String) :
    State → List String → Option (State × List String)
  | _, [] => none
  | s, line :: rest =>
    match chatbotStep llm search s line with
    | StepResult.quit => some (s, [])
    | StepResult.err => none
    | StepResult.turn s1 out =>
      match chatbotRun llm search s1 rest with
      | none => none
      | some (sf, outs) => some (sf, out :: outs)

/-- A deterministic stand-in for the language-model collaborator, used to
instantiate theorems at concrete inputs. -/
def stubLLM : List Message → String := fun _ => "Portugal beaches"

/-- A deterministic stand-in for the search collaborator, used to
instantiate theorems at concrete inputs. -/
def stubSearch : String → String := fun q => "results about " ++ q

/-- A synthetic first node whose output always routes onward, used to
exercise the router wiring in isolation. -/
def nodeValid : State → State :=
  fun s => { messages := s.messages ++ [Message.ai "ok"], valid_input := true }

/-- A synthetic middle node that reports failure, used to exercise the
router's early exit after the search stage. -/
def nodeInvalid : State → Option State :=
  fun s => some { messages := s.messages, valid_input := false }

/- ### Helper lemmas -/

-- Router: a false flag after the first node ends the run at once.
lemma graphRun_flag_false (n1 : State → State) (n2 n3 : State → Option State) (s : State)
    (h : (n1 s).valid_input = false) :
    graphRun n1 n2 n3 s = some (n1 s, [GNode.process_input]) := by
  simp [graphRun, route_after_input, h]

-- Router: a true flag after the first node hands the state to the second node.
lemma graphRun_search_none (n1 : State → State) (n2 n3 : State → Option State) (s : State)
    (h1 : (n1 s).valid_input = true) (h2 : n2 (n1 s) = none) :
    graphRun n1 n2 n3 s = none := by
  simp [graphRun, route_after_input, h1, h2]

-- Router: a false flag after the second node ends the run before the third.
lemma graphRun_search_false (n1 : State → State) (n2 n3 : State → Option State) (s s2 : State)
    (h1 : (n1 s).valid_input = true) (h2 : n2 (n1 s) = some s2)
    (h3 : s2.valid_input = false) :
    graphRun n1 n2 n3 s = some (s2, [GNode.process_input, GNode.process_search]) := by
  simp [graphRun, route_after_input, route_after_search, h1, h2, h3]

-- Router: the third node's exception propagates.
lemma graphRun_format_none (n1 : State → State) (n2 n3 : State → Option State) (s s2 : State)
    (h1 : (n1 s).valid_input = true) (h2 : n2 (n1 s) = some s2)
    (h3 : s2.valid_input = true) (h4 : n3 s2 = none) :
    graphRun n1 n2 n3 s = none := by
  simp [graphRun, route_after_input, route_after_search, h1, h2, h3, h4]

-- Router: the full three-stage run.
lemma graphRun_full (n1 : State → State) (n2 n3 : State → Option State) (s s2 s3 : State)
    (h1 : (n1 s).valid_input = true) (h2 : n2 (n1 s) = some s2)
    (h3 : s2.valid_input = true) (h4 : n3 s2 = some s3) :
    graphRun n1 n2 n3 s =
      some (s3, [GNode.process_input, GNode.process_search, GNode.format_output]) := by
  simp [graphRun, route_after_input, route_after_search, h1, h2, h3, h4]

-- `processing_node` always appends exactly one message to the history.
lemma processing_node_append (llm : List Message → String) (s : State) :
    ∃ m b, processing_node llm s = { messages := s.messages ++ [m], valid_input := b } := by
  cases hl : s.messages.getLast? with
  | none => exact ⟨Message.ai "No user input received.", false, by simp [processing_node, hl]⟩
  | some m =>
    cases m with
    | human c =>
      by_cases hc : pyStrip c = ""
      · exact ⟨Message.ai "No user input received.", false, by simp [processing_node, hl, hc]⟩
      · exact ⟨Message.ai (llm [Message.system rewrite_instruction, Message.human c]), true,
          by simp [processing_node, hl, hc]⟩
    | ai c => exact ⟨Message.ai "No user input received.", false, by simp [processing_node, hl]⟩
    | system c => exact ⟨Message.ai "No user input received.", false, by simp [processing_node, hl]⟩

-- On a nonempty history `process_search` returns and appends exactly one message.
lemma process_search_some (search : String → String) (s : State) (h : s.messages ≠ []) :
    ∃ m b, process_search search s = some { messages := s.messages ++ [m], valid_input := b } := by
  cases hl : s.messages.getLast? with
  | none => exact absurd (List.getLast?_eq_none_iff.mp hl) h
  | some m =>
    cases m with
    | human c => exact ⟨Message.ai "No search query received.", false, by simp [process_search, hl]⟩
    | ai c => exact ⟨Message.ai ("Search results: " ++ search c), true, by simp [process_search, hl]⟩
    | system c => exact ⟨Message.ai "No search query received.", false, by simp [process_search, hl]⟩

-- On a nonempty history `format_output` returns and appends exactly one message.
lemma format_output_some (llm : List Message → String) (s : State) (h : s.messages ≠ []) :
    ∃ m b, format_output llm s = some { messages := s.messages ++ [m], valid_input := b } := by
  cases hl : s.messages.getLast? with
  | none => exact absurd (List.getLast?_eq_none_iff.mp hl) h
  | some m =>
    cases m with
    | human c => exact ⟨Message.ai "No search results received.", false, by simp [format_output, hl]⟩
    | ai c => exact ⟨Message.ai (llm [Message.system format_instruction, Message.human c]), true,
        by simp [format_output, hl]⟩
    | system c => exact ⟨Message.ai "No search results received.", false, by simp [format_output, hl]⟩

-- Both branches of `processing_node` leave an `AIMessage` last.
lemma processing_node_last_ai (llm : List Message → String) (s : State) :
    ∃ c, (processing_node llm s).messages.getLast? = some (Message.ai c) := by
  cases hl : s.messages.getLast? with
  | none => exact ⟨"No user input received.", by simp [processing_node, hl]⟩
  | some m =>
    cases m with
    | human c =>
      by_cases hc : pyStrip c = ""
      · exact ⟨"No user input received.", by simp [processing_node, hl, hc]⟩
      · exact ⟨llm [Message.system rewrite_instruction, Message.human c],
          by simp [processing_node, hl, hc]⟩
    | ai c => exact ⟨"No user input received.", by simp [processing_node, hl]⟩
    | system c => exact ⟨"No user input received.", by simp [processing_node, hl]⟩

-- Both branches of `process_search` leave an `AIMessage` last.
lemma process_search_last_ai (search : String → String) (s s2 : State)
    (h : process_search search s = some s2) :
    ∃ c, s2.messages.getLast? = some (Message.ai c) := by
  cases hl : s.messages.getLast? with
  | none => simp [process_search, hl] at h
  | some m =>
    cases m with
    | human c =>
      simp [process_search, hl] at h
      exact ⟨"No search query received.", by simp [← h]⟩
    | ai c =>
      simp [process_search, hl] at h
      exact ⟨"Search results: " ++ search c, by simp [← h]⟩
    | system c =>
      simp [process_search, hl] at h
      exact ⟨"No search query received.", by simp [← h]⟩

-- Both branches of `format_output` leave an `AIMessage` last.
lemma format_output_last_ai (llm : List Message → String) (s s3 : State)
    (h : format_output llm s = some s3) :
    ∃ c, s3.messages.getLast? = some (Message.ai c) := by
  cases hl : s.messages.getLast? with
  | none => simp [format_output, hl] at h
  | some m =>
    cases m with
    | human c =>
      simp [format_output, hl] at h
      exact ⟨"No search results received.", by simp [← h]⟩
    | ai c =>
      simp [format_output, hl] at h
      exact ⟨llm [Message.system format_instruction, Message.human c], by simp [← h]⟩
    | system c =>
      simp [format_output, hl] at h
      exact ⟨"No search results received.", by simp [← h]⟩

-- The compiled graph never raises: every invocation returns a state and a trace.
lemma graphInvoke_some (llm : List Message → String) (search : String → String) (s : State) :
    ∃ s1 tr, graphInvoke llm search s = some (s1, tr) := by
  unfold graphInvoke
  by_cases h1 : (processing_node llm s).valid_input = true
  · obtain ⟨m0, b0, hp⟩ := processing_node_append llm s
    have hne : (processing_node llm s).messages ≠ [] := by
      rw [hp]
      simp
    obtain ⟨m1, b1, hs⟩ := process_search_some search (processing_node llm s) hne
    by_cases h2 : b1 = true
    · have hne2 : ((processing_node llm s).messages ++ [m1]) ≠ [] := by simp
      obtain ⟨m2, b2, hf⟩ :=
        format_output_some llm
          { messages := (processing_node llm s).messages ++ [m1], valid_input := b1 } hne2
      exact ⟨_, _, graphRun_full (processing_node llm) (process_search search)
        (format_output llm) s _ _ h1 hs (by simp [h2]) hf⟩
    · exact ⟨_, _, graphRun_search_false (processing_node llm) (process_search search)
        (format_output llm) s _ h1 hs (by simp [Bool.not_eq_true] at h2; exact h2)⟩
  · exact ⟨_, _, graphRun_flag_false (processing_node llm) (process_search search)
      (format_output llm) s (by simp [Bool.not_eq_true] at h1; exact h1)⟩

-- Whatever branch the graph takes, the final state ends in an `AIMessage`.
lemma graphInvoke_last_ai (llm : List Message → String) (search : String → String)
    (s s' : State) (tr : List GNode) (h : graphInvoke llm search s = some (s', tr)) :
    ∃ c, s'.messages.getLast? = some (Message.ai c) := by
  unfold graphInvoke at h
  by_cases h1 : (processing_node llm s).valid_input = true
  · cases hs : process_search search (processing_node llm s) with
    | none =>
      rw [graphRun_search_none _ _ _ _ h1 hs] at h
      cases h
    | some s2 =>
      by_cases h2 : s2.valid_input = true
      · cases hf : format_output llm s2 with
        | none =>
          rw [graphRun_format_none _ _ _ _ _ h1 hs h2 hf] at h
          cases h
        | some s3 =>
          rw [graphRun_full _ _ _ _ _ _ h1 hs h2 hf] at h
          simp only [Option.some.injEq, Prod.mk.injEq] at h
          obtain ⟨rfl, rfl⟩ := h
          exact format_output_last_ai llm s2 s3 hf
      · rw [graphRun_search_false _ _ _ _ _ h1 hs (by simp [Bool.not_eq_true] at h2; exact h2)]
          at h
        simp only [Option.some.injEq, Prod.mk.injEq] at h
        obtain ⟨rfl, rfl⟩ := h
        exact process_search_last_ai search (processing_node llm s) s2 hs
  · rw [graphRun_flag_false _ _ _ _ (by simp [Bool.not_eq_true] at h1; exact h1)] at h
    simp only [Option.some.injEq, Prod.mk.injEq] at h
    obtain ⟨rfl, rfl⟩ := h
    exact processing_node_last_ai llm s

/- ### Claim theorems -/

/-- C1: for every input state whose message list is empty, whose last
message is not user-authored, or whose last message's content is empty or
whitespace-only after stripping, `processing_node` returns the input
messages with exactly the assistant message "No user input received."
appended and sets `valid_input` to false (and, being a total function,
raises no exception). -/
theorem processing_node_invalid_input (llm : List Message → String) (s : State)
    (h : s.messages = [] ∨
      (∃ m, s.messages.getLast? = some m ∧ m.isHuman = false) ∨
      (∃ c, s.messages.getLast? = some (Message.human c) ∧ pyStrip c = "")) :
    processing_node llm s =
      { messages := s.messages ++ [Message.ai "No user input received."],
        valid_input := false } := by
  rcases h with h | ⟨m, hm, hh⟩ | ⟨c, hc, ht⟩
  · simp [processing_node, h]
  · cases m with
    | human c => simp [Message.isHuman] at hh
    | ai c => simp [processing_node, hm]
    | system c => simp [processing_node, hm]
  · simp [processing_node, hc, ht]

/-- Witness for C1: the empty state gets the diagnostic. -/
theorem processing_node_invalid_input_witness :
    processing_node stubLLM { messages := [], valid_input := true } =
      { messages := [Message.ai "No user input received."], valid_input := false } :=
  processing_node_invalid_input stubLLM { messages := [], valid_input := true } (Or.inl rfl)

/-- C4: for every input state whose last message is user-authored with
non-empty, non-whitespace-only content, `processing_node` appends exactly
one assistant message — the language-model collaborator's response — and
sets `valid_input` to true. -/
theorem processing_node_valid_input (llm : List Message → String) (s : State) (c : String)
    (h1 : s.messages.getLast? = some (Message.human c)) (h2 : pyStrip c ≠ "") :
    processing_node llm s =
      { messages := s.messages ++
          [Message.ai (llm [Message.system rewrite_instruction, Message.human c])],
        valid_input := true } := by
  simp [processing_node, h1, h2]

/-- Witness for C4: a concrete user query is rewritten by the stub model. -/
theorem processing_node_valid_input_witness :
    processing_node stubLLM
        { messages := [Message.human "best beaches in Portugal"], valid_input := false } =
      { messages := [Message.human "best beaches in Portugal",
          Message.ai (stubLLM [Message.system rewrite_instruction,
            Message.human "best beaches in Portugal"])],
        valid_input := true } :=
  processing_node_valid_input stubLLM
    { messages := [Message.human "best beaches in Portugal"], valid_input := false }
    "best beaches in Portugal" rfl (by decide)

/-- C5: for every input state whose non-empty message list ends in an
assistant message, `process_search` appends exactly one assistant message
whose content is "Search results: " followed by the raw search result for
the last message's content, and sets `valid_input` to true. -/
theorem process_search_valid_query (search : String → String) (s : State) (c : String)
    (h : s.messages.getLast? = some (Message.ai c)) :
    process_search search s =
      some { messages := s.messages ++ [Message.ai ("Search results: " ++ search c)],
             valid_input := true } := by
  simp [process_search, h]

/-- Witness for C5: a concrete rewritten query is searched by the stub tool. -/
theorem process_search_valid_query_witness :
    process_search stubSearch { messages := [Message.ai "Portugal beaches"], valid_input := true } =
      some { messages := [Message.ai "Portugal beaches",
               Message.ai ("Search results: " ++ stubSearch "Portugal beaches")],
             valid_input := true } :=
  process_search_valid_query stubSearch
    { messages := [Message.ai "Portugal beaches"], valid_input := true } "Portugal beaches" rfl

/-- C2 (amended): for every input state whose message list is NONEMPTY and
whose last message is not assistant-authored, `process_search` and
`format_output` handle the malformed input uniformly and without raising:
each appends its fixed diagnostic as the new last message and sets
`valid_input` to false.  (On an empty message list both stages raise
`IndexError` at `messages[-1]`, so the original claim fails there.) -/
theorem stage_diagnostic_on_non_assistant (llm : List Message → String)
    (search : String → String) (s : State) (m : Message)
    (hm : s.messages.getLast? = some m) (hai : m.isAI = false) :
    process_search search s =
      some { messages := s.messages ++ [Message.ai "No search query received."],
             valid_input := false } ∧
    format_output llm s =
      some { messages := s.messages ++ [Message.ai "No search results received."],
             valid_input := false } := by
  cases m with
  | human c => exact ⟨by simp [process_search, hm], by simp [format_output, hm]⟩
  | ai c => simp [Message.isAI] at hai
  | system c => exact ⟨by simp [process_search, hm], by simp [format_output, hm]⟩

/-- Witness for C2 (amended): a user-authored last message draws both
diagnostics. -/
theorem stage_diagnostic_on_non_assistant_witness :
    process_search stubSearch { messages := [Message.human "hi"], valid_input := true } =
      some { messages := [Message.human "hi", Message.ai "No search query received."],
             valid_input := false } ∧
    format_output stubLLM { messages := [Message.human "hi"], valid_input := true } =
      some { messages := [Message.human "hi", Message.ai "No search results received."],
             valid_input := false } :=
  stage_diagnostic_on_non_assistant stubLLM stubSearch
    { messages := [Message.human "hi"], valid_input := true } (Message.human "hi") rfl rfl

/-- Counterexample for C2 as stated: on the empty message list both
`process_search` and `format_output` evaluate `messages[-1]`, which
raises `IndexError` (modelled as `none`); neither returns the state with
the promised diagnostic appended. -/
theorem stage_empty_messages_counterexample :
    process_search stubSearch { messages := [], valid_input := false } = none ∧
    format_output stubLLM { messages := [], valid_input := false } = none ∧
    process_search stubSearch { messages := [], valid_input := false } ≠
      some { messages := [Message.ai "No search query received."], valid_input := false } ∧
    format_output stubLLM { messages := [], valid_input := false } ≠
      some { messages := [Message.ai "No search results received."], valid_input := false } :=
  ⟨rfl, rfl, by decide, by decide⟩

/-- C6: every stage returns the input message list with exactly one new
message appended — nothing is removed, reordered or modified — in both
the success and the failure branch; for the two stages that index
`messages[-1]` unconditionally this holds on every state they handle,
i.e. every state with a nonempty message list. -/
theorem stages_append_exactly_one (llm : List Message → String) (search : String → String)
    (s : State) :
    (∃ m, (processing_node llm s).messages = s.messages ++ [m]) ∧
    (s.messages ≠ [] →
      ∃ s2 m, process_search search s = some s2 ∧ s2.messages = s.messages ++ [m]) ∧
    (s.messages ≠ [] →
      ∃ s3 m, format_output llm s = some s3 ∧ s3.messages = s.messages ++ [m]) := by
  refine ⟨?_, ?_, ?_⟩
  · obtain ⟨m, b, hp⟩ := processing_node_append llm s
    exact ⟨m, by rw [hp]⟩
  · intro h
    obtain ⟨m, b, hs⟩ := process_search_some search s h
    exact ⟨_, m, hs, rfl⟩
  · intro h
    obtain ⟨m, b, hf⟩ := format_output_some llm s h
    exact ⟨_, m, hf, rfl⟩

/-- Witness for C6: all three stages append exactly one message to a
concrete one-element history. -/
theorem stages_append_exactly_one_witness :
    (∃ m, (processing_node stubLLM { messages := [Message.human "hi"], valid_input := false }).messages =
      [Message.human "hi"] ++ [m]) ∧
    (∃ s2 m, process_search stubSearch { messages := [Message.human "hi"], valid_input := false } =
      some s2 ∧ s2.messages = [Message.human "hi"] ++ [m]) ∧
    (∃ s3 m, format_output stubLLM { messages := [Message.human "hi"], valid_input := false } =
      some s3 ∧ s3.messages = [Message.human "hi"] ++ [m]) := by
  obtain ⟨h1, h2, h3⟩ :=
    stages_append_exactly_one stubLLM stubSearch
      { messages := [Message.human "hi"], valid_input := false }
  exact ⟨h1, h2 (by decide), h3 (by decide)⟩

/-- C9: each stage's behaviour depends only on the last element of the
input history — two states with the same last message get the same
appended message and the same flag from every stage (and `process_search`
and `format_output` raise on one iff they raise on the other). -/
theorem stages_depend_only_on_last (llm : List Message → String) (search : String → String)
    (s t : State) (h : s.messages.getLast? = t.messages.getLast?) :
    (∃ m b, processing_node llm s = { messages := s.messages ++ [m], valid_input := b } ∧
            processing_node llm t = { messages := t.messages ++ [m], valid_input := b }) ∧
    ((process_search search s = none ∧ process_search search t = none) ∨
      ∃ m b, process_search search s = some { messages := s.messages ++ [m], valid_input := b } ∧
             process_search search t = some { messages := t.messages ++ [m], valid_input := b }) ∧
    ((format_output llm s = none ∧ format_output llm t = none) ∨
      ∃ m b, format_output llm s = some { messages := s.messages ++ [m], valid_input := b } ∧
             format_output llm t = some { messages := t.messages ++ [m], valid_input := b }) := by
  cases hl : s.messages.getLast? with
  | none =>
    have hlt : t.messages.getLast? = none := by rw [← h, hl]
    exact ⟨⟨Message.ai "No user input received.", false,
        by simp [processing_node, hl], by simp [processing_node, hlt]⟩,
      Or.inl ⟨by simp [process_search, hl], by simp [process_search, hlt]⟩,
      Or.inl ⟨by simp [format_output, hl], by simp [format_output, hlt]⟩⟩
  | some m =>
    have hlt : t.messages.getLast? = some m := by rw [← h, hl]
    cases m with
    | human c =>
      refine ⟨?_, ?_, ?_⟩
      · by_cases hc : pyStrip c = ""
        · exact ⟨Message.ai "No user input received.", false,
            by simp [processing_node, hl, hc], by simp [processing_node, hlt, hc]⟩
        · exact ⟨Message.ai (llm [Message.system rewrite_instruction, Message.human c]), true,
            by simp [processing_node, hl, hc], by simp [processing_node, hlt, hc]⟩
      · exact Or.inr ⟨Message.ai "No search query received.", false,
          by simp [process_search, hl], by simp [process_search, hlt]⟩
      · exact Or.inr ⟨Message.ai "No search results received.", false,
          by simp [format_output, hl], by simp [format_output, hlt]⟩
    | ai c =>
      refine ⟨?_, ?_, ?_⟩
      · exact ⟨Message.ai "No user input received.", false,
          by simp [processing_node, hl], by simp [processing_node, hlt]⟩
      · exact Or.inr ⟨Message.ai ("Search results: " ++ search c), true,
          by simp [process_search, hl], by simp [process_search, hlt]⟩
      · exact Or.inr ⟨Message.ai (llm [Message.system format_instruction, Message.human c]), true,
          by simp [format_output, hl], by simp [format_output, hlt]⟩
    | system c =>
      refine ⟨?_, ?_, ?_⟩
      · exact ⟨Message.ai "No user input received.", false,
          by simp [processing_node, hl], by simp [processing_node, hlt]⟩
      · exact Or.inr ⟨Message.ai "No search query received.", false,
          by simp [process_search, hl], by simp [process_search, hlt]⟩
      · exact Or.inr ⟨Message.ai "No search results received.", false,
          by simp [format_output, hl], by simp [format_output, hlt]⟩

/-- Witness for C9: two histories of different lengths with the same last
message are treated identically by all three stages. -/
theorem stages_depend_only_on_last_witness :
    (∃ m b, processing_node stubLLM { messages := [Message.ai "x"], valid_input := false } =
        { messages := [Message.ai "x"] ++ [m], valid_input := b } ∧
      processing_node stubLLM
          { messages := [Message.human "pad", Message.ai "x"], valid_input := true } =
        { messages := [Message.human "pad", Message.ai "x"] ++ [m], valid_input := b }) ∧
    ((process_search stubSearch { messages := [Message.ai "x"], valid_input := false } = none ∧
      process_search stubSearch
        { messages := [Message.human "pad", Message.ai "x"], valid_input := true } = none) ∨
      ∃ m b, process_search stubSearch { messages := [Message.ai "x"], valid_input := false } =
          some { messages := [Message.ai "x"] ++ [m], valid_input := b } ∧
        process_search stubSearch
            { messages := [Message.human "pad", Message.ai "x"], valid_input := true } =
          some { messages := [Message.human "pad", Message.ai "x"] ++ [m], valid_input := b }) ∧
    ((format_output stubLLM { messages := [Message.ai "x"], valid_input := false } = none ∧
      format_output stubLLM
        { messages := [Message.human "pad", Message.ai "x"], valid_input := true } = none) ∨
      ∃ m b, format_output stubLLM { messages := [Message.ai "x"], valid_input := false } =
          some { messages := [Message.ai "x"] ++ [m], valid_input := b } ∧
        format_output stubLLM
            { messages := [Message.human "pad", Message.ai "x"], valid_input := true } =
          some { messages := [Message.human "pad", Message.ai "x"] ++ [m], valid_input := b }) :=
  stages_depend_only_on_last stubLLM stubSearch
    { messages := [Message.ai "x"], valid_input := false }
    { messages := [Message.human "pad", Message.ai "x"], valid_input := true } rfl

/-- C3: the router short-circuits — when the state after the first node
has `valid_input` false the run ends at once with neither the search node
nor the format node invoked, and when the state after the search node has
`valid_input` false the format node is not invoked.  Stated for the graph
wiring over arbitrary node functions. -/
theorem router_short_circuits (n1 : State → State) (n2 n3 : State → Option State)
    (s sf : State) (tr : List GNode)
    (h : graphRun n1 n2 n3 s = some (sf, tr)) :
    ((n1 s).valid_input = false →
      GNode.process_search ∉ tr ∧ GNode.format_output ∉ tr ∧ sf = n1 s) ∧
    (∀ s2, n2 (n1 s) = some s2 → s2.valid_input = false →
      GNode.format_output ∉ tr) := by
  constructor
  · intro hv
    rw [graphRun_flag_false n1 n2 n3 s hv] at h
    simp only [Option.some.injEq, Prod.mk.injEq] at h
    obtain ⟨rfl, rfl⟩ := h
    exact ⟨by simp, by simp, rfl⟩
  · intro s2 hs2 hv2
    by_cases h1 : (n1 s).valid_input = true
    · rw [graphRun_search_false n1 n2 n3 s s2 h1 hs2 hv2] at h
      simp only [Option.some.injEq, Prod.mk.injEq] at h
      obtain ⟨rfl, rfl⟩ := h
      simp
    · rw [graphRun_flag_false n1 n2 n3 s (by simp [Bool.not_eq_true] at h1; exact h1)] at h
      simp only [Option.some.injEq, Prod.mk.injEq] at h
      obtain ⟨rfl, rfl⟩ := h
      simp

/-- Witness for C3: a failed rewrite on the real nodes ends the run after
the first node, and a synthetic failing search node ends it before the
format node. -/
theorem router_short_circuits_witness :
    (GNode.process_search ∉ [GNode.process_input] ∧
     GNode.format_output ∉ [GNode.process_input] ∧
     processing_node stubLLM initial_state = processing_node stubLLM initial_state) ∧
    GNode.format_output ∉ [GNode.process_input, GNode.process_search] :=
  ⟨(router_short_circuits (processing_node stubLLM) (process_search stubSearch)
      (format_output stubLLM) initial_state (processing_node stubLLM initial_state)
      [GNode.process_input] rfl).1 rfl,
   (router_short_circuits nodeValid nodeInvalid (format_output stubLLM) initial_state
      { messages := [Message.ai "ok"], valid_input := false }
      [GNode.process_input, GNode.process_search] rfl).2
      { messages := [Message.ai "ok"], valid_input := false } rfl rfl⟩

-- A valid raw-results message makes `format_output` append the formatted reply.
lemma format_output_valid_results (llm : List Message → String) (s : State) (c : String)
    (h : s.messages.getLast? = some (Message.ai c)) :
    format_output llm s =
      some { messages := s.messages ++
               [Message.ai (llm [Message.system format_instruction, Message.human c])],
             valid_input := true } := by
  simp [format_output, h]

-- The loop body stops on the exact input "q".
lemma chatbotStep_quit (llm : List Message → String) (search : String → String) (s : State) :
    chatbotStep llm search s "q" = StepResult.quit := by
  simp [chatbotStep]

-- A non-"q", non-blank line drives one full pipeline turn: the user
-- message plus three stage messages are appended and the flag ends true.
lemma chatbotStep_success (llm : List Message → String) (search : String → String)
    (s : State) (line : String) (hq : line ≠ "q") (ht : pyStrip line ≠ "") :
    ∃ m1 m2 m3 out,
      chatbotStep llm search s line =
        StepResult.turn
          { messages := s.messages ++ [Message.human line, m1, m2, m3], valid_input := true }
          out := by
  obtain ⟨r1, hr1⟩ : ∃ r, llm [Message.system rewrite_instruction, Message.human line] = r :=
    ⟨_, rfl⟩
  obtain ⟨r2, hr2⟩ : ∃ r, "Search results: " ++ search r1 = r := ⟨_, rfl⟩
  obtain ⟨r3, hr3⟩ : ∃ r, llm [Message.system format_instruction, Message.human r2] = r :=
    ⟨_, rfl⟩
  have hp : processing_node llm
      { messages := s.messages ++ [Message.human line], valid_input := s.valid_input } =
      { messages := (s.messages ++ [Message.human line]) ++ [Message.ai r1],
        valid_input := true } := by
    rw [← hr1]
    exact processing_node_valid_input llm _ line (List.getLast?_concat _) ht
  have hsch : process_search search
      { messages := (s.messages ++ [Message.human line]) ++ [Message.ai r1],
        valid_input := true } =
      some { messages := ((s.messages ++ [Message.human line]) ++ [Message.ai r1]) ++
               [Message.ai r2],
             valid_input := true } := by
    rw [← hr2]
    exact process_search_valid_query search _ r1 (List.getLast?_concat _)
  have hfmt : format_output llm
      { messages := ((s.messages ++ [Message.human line]) ++ [Message.ai r1]) ++
          [Message.ai r2],
        valid_input := true } =
      some { messages := (((s.messages ++ [Message.human line]) ++ [Message.ai r1]) ++
               [Message.ai r2]) ++ [Message.ai r3],
             valid_input := true } := by
    rw [← hr3]
    exact format_output_valid_results llm _ r2 (List.getLast?_concat _)
  have hg : graphInvoke llm search
      { messages := s.messages ++ [Message.human line], valid_input := s.valid_input } =
      some ({ messages := (((s.messages ++ [Message.human line]) ++ [Message.ai r1]) ++
                [Message.ai r2]) ++ [Message.ai r3],
              valid_input := true },
        [GNode.process_input, GNode.process_search, GNode.format_output]) := by
    unfold graphInvoke
    exact graphRun_full _ _ _ _ _ _ (by rw [hp]) (by rw [hp]; exact hsch) rfl hfmt
  have hlast : ((((s.messages ++ [Message.human line]) ++ [Message.ai r1]) ++
      [Message.ai r2]) ++ [Message.ai r3]).getLast? = some (Message.ai r3) :=
    List.getLast?_concat _
  refine ⟨Message.ai r1, Message.ai r2, Message.ai r3, r3, ?_⟩
  simp only [chatbotStep, if_neg hq, hg, hlast]
  simp

/-- C10: every pipeline run that completes without an exception leaves an
assistant-authored message last, so the loop's "Invalid response
received." branch is never taken for a completed turn: the printed line
is always the content of an assistant message. -/
theorem pipeline_final_message_assistant (llm : List Message → String)
    (search : String → String) (s : State) :
    (∀ sf tr, graphInvoke llm search s = some (sf, tr) →
      ∃ c, sf.messages.getLast? = some (Message.ai c)) ∧
    (∀ line, line ≠ "q" →
      ∃ s1 c, s1.messages.getLast? = some (Message.ai c) ∧
        chatbotStep llm search s line = StepResult.turn s1 c) := by
  constructor
  · intro sf tr h
    exact graphInvoke_last_ai llm search s sf tr h
  · intro line hline
    obtain ⟨s1, tr, hg⟩ := graphInvoke_some llm search
      { messages := s.messages ++ [Message.human line], valid_input := s.valid_input }
    obtain ⟨c, hc⟩ := graphInvoke_last_ai llm search _ s1 tr hg
    refine ⟨s1, c, hc, ?_⟩
    simp only [chatbotStep, if_neg hline, hg, hc]

/-- Witness for C10: a concrete failed run ends in an assistant message,
and a concrete turn prints an assistant message's content. -/
theorem pipeline_final_message_assistant_witness :
    (∃ c, (processing_node stubLLM initial_state).messages.getLast? =
      some (Message.ai c)) ∧
    (∃ s1 c, s1.messages.getLast? = some (Message.ai c) ∧
      chatbotStep stubLLM stubSearch initial_state "hello" = StepResult.turn s1 c) :=
  ⟨(pipeline_final_message_assistant stubLLM stubSearch initial_state).1
      (processing_node stubLLM initial_state) [GNode.process_input] rfl,
   (pipeline_final_message_assistant stubLLM stubSearch initial_state).2 "hello" (by decide)⟩

/-- C7: on exact input "q" the loop terminates with no further output; on
any other input it runs one pipeline turn and prints the final message's
content when that message is assistant-authored, and "Invalid response
received." otherwise. -/
theorem chatbot_turn_contract (llm : List Message → String) (search : String → String)
    (s : State) (line : String) (rest : List String) :
    (line = "q" → chatbotRun llm search s (line :: rest) = some (s, [])) ∧
    (line ≠ "q" →
      ∃ s1 tr m, graphInvoke llm search
          { messages := s.messages ++ [Message.human line], valid_input := s.valid_input } =
          some (s1, tr) ∧
        s1.messages.getLast? = some m ∧
        chatbotStep llm search s line =
          StepResult.turn s1 (if m.isAI then m.content else "Invalid response received.")) := by
  constructor
  · intro hq
    subst hq
    simp [chatbotRun, chatbotStep]
  · intro hline
    obtain ⟨s1, tr, hg⟩ := graphInvoke_some llm search
      { messages := s.messages ++ [Message.human line], valid_input := s.valid_input }
    obtain ⟨c, hc⟩ := graphInvoke_last_ai llm search _ s1 tr hg
    refine ⟨s1, tr, Message.ai c, hg, hc, ?_⟩
    simp only [chatbotStep, if_neg hline, hg, hc, Message.isAI, Message.content, if_true]

/-- Witness for C7: quitting leaves the state untouched with no output,
and a concrete non-"q" line produces one printed assistant reply. -/
theorem chatbot_turn_contract_witness :
    chatbotRun stubLLM stubSearch initial_state ["q"] = some (initial_state, []) ∧
    (∃ s1 tr m, graphInvoke stubLLM stubSearch
        { messages := initial_state.messages ++ [Message.human "hello"],
          valid_input := initial_state.valid_input } = some (s1, tr) ∧
      s1.messages.getLast? = some m ∧
      chatbotStep stubLLM stubSearch initial_state "hello" =
        StepResult.turn s1 (if m.isAI then m.content else "Invalid response received.")) :=
  ⟨(chatbot_turn_contract stubLLM stubSearch initial_state "q" []).1 rfl,
   (chatbot_turn_contract stubLLM stubSearch initial_state "hello" []).2 (by decide)⟩

/-- C8: the conversation state starts as an empty message list with
`valid_input` false and accumulates across turns: after two successful
turns the history holds eight messages — three appended per pipeline run
plus the two user inputs. -/
theorem conversation_history_accumulates (llm : List Message → String)
    (search : String → String) (l1 l2 : String)
    (hq1 : l1 ≠ "q") (ht1 : pyStrip l1 ≠ "") (hq2 : l2 ≠ "q") (ht2 : pyStrip l2 ≠ "") :
    initial_state.messages.length = 0 ∧ initial_state.valid_input = false ∧
    ∃ s1 o1 s2 o2,
      chatbotStep llm search initial_state l1 = StepResult.turn s1 o1 ∧
      chatbotStep llm search s1 l2 = StepResult.turn s2 o2 ∧
      s1.messages.length = 4 ∧
      s2.messages.length = 8 ∧
      chatbotRun llm search initial_state [l1, l2, "q"] = some (s2, [o1, o2]) := by
  obtain ⟨m1, m2, m3, o1, h1⟩ := chatbotStep_success llm search initial_state l1 hq1 ht1
  obtain ⟨n1, n2, n3, o2, h2⟩ := chatbotStep_success llm search
    { messages := initial_state.messages ++ [Message.human l1, m1, m2, m3],
      valid_input := true } l2 hq2 ht2
  refine ⟨rfl, rfl, _, o1, _, o2, h1, h2, rfl, rfl, ?_⟩
  simp only [chatbotRun, h1, h2, chatbotStep_quit]

/-- Witness for C8: two concrete successful turns leave exactly eight
messages. -/
theorem conversation_history_accumulates_witness :
    initial_state.messages.length = 0 ∧ initial_state.valid_input = false ∧
    ∃ s1 o1 s2 o2,
      chatbotStep stubLLM stubSearch initial_state "best beaches in Portugal" =
        StepResult.turn s1 o1 ∧
      chatbotStep stubLLM stubSearch s1 "things to do in Lisbon" = StepResult.turn s2 o2 ∧
      s1.messages.length = 4 ∧
      s2.messages.length = 8 ∧
      chatbotRun stubLLM stubSearch initial_state
        ["best beaches in Portugal", "things to do in Lisbon", "q"] = some (s2, [o1, o2]) :=
  conversation_history_accumulates stubLLM stubSearch "best beaches in Portugal"
    "things to do in Lisbon" (by decide) (by decide) (by decide) (by decide)
